import Mathlib

/-!
Shallow embedding of the alnio event-driven TCP server core
(src/buf.rs, src/socket.rs, src/conn.rs, src/event_loop.rs).

Bytes are modelled as `Nat`; a Rust `Vec<u8>` guarded by a mutex becomes a
plain `List Nat` (all claims are about sequential executions, where the
lock-protected operations are linearized).  Kernel calls (`libc::recv`,
`libc::send`, `getsockopt`, `shutdown`, `close`) are nondeterministic from
the program's point of view and are modelled by explicit oracle arguments
describing the kernel's responses.  Fallible Rust functions returning
`io::Result<T>` become `IoResult T`; buffer mutations performed through the
shared `Arc<Buffer>` handles are threaded explicitly as state.
-/

namespace Alnio

/-- Error kinds used by the source (`std::io::ErrorKind` values that appear
in socket.rs / event_loop.rs, plus raw OS errno values). -/
inductive ErrKind where
  | invalidInput
  | wouldBlock
  | unexpectedEof
  | writeZero
  | other
  | osError (errno : Nat)
deriving DecidableEq, Repr

/-- An `std::io::Error`: a kind together with its message. -/
structure IoError where
  kind : ErrKind
  msg : String
deriving DecidableEq, Repr

/-- Result of a fallible operation, mirroring `std::io::Result<T>`. -/
inductive IoResult (α : Type) where
  | ok (a : α)
  | err (e : IoError)
deriving DecidableEq, Repr

/-- The thread-safe byte queue of src/buf.rs (`Buffer`): a mutex-guarded
`Vec<u8>`, modelled by its contents. -/
structure Buffer where
  data : List Nat
deriving DecidableEq, Repr

/-- `Buffer::new`: the empty buffer. -/
def Buffer.new : Buffer := ⟨[]⟩

/-- `Buffer::append`: `extend_from_slice` at the end. -/
def Buffer.append (b : Buffer) (buf : List Nat) : Buffer := ⟨b.data ++ buf⟩

/-- `Buffer::len`. -/
def Buffer.len (b : Buffer) : Nat := b.data.length

/-- `Buffer::prepend`: builds a fresh vector holding `buf` followed by the
current contents and swaps it in. -/
def Buffer.prepend (b : Buffer) (buf : List Nat) : Buffer := ⟨buf ++ b.data⟩

/-- `Buffer::extract`: clamps `len` to the current length, copies out the
prefix `v[0..len]`, then shifts the tail down in place
(`v[x] = v[x+len]` for `x < remaining_len`, then `set_len remaining_len`).
Returns the extracted prefix and the buffer left behind. -/
def Buffer.extract (b : Buffer) (n : Nat) : List Nat × Buffer :=
  let v := b.data
  let len := if v.length < n then v.length else n
  let retBuf := v.take len
  let remaining := (List.range (v.length - len)).map (fun x => v.getD (x + len) 0)
  (retBuf, ⟨remaining⟩)

/-- `usize::MAX` (socket.rs passes it to `extract` to drain the whole
TX buffer). -/
def usizeMAX : Nat := 18446744073709551615

/-- The connection handle of src/conn.rs: a raw fd plus a peer address.
The address plays no role in any claim; it is modelled as an opaque token. -/
structure Connection where
  socket : Int
  addr : Nat
deriving DecidableEq, Repr

/-- Process-wide mutable state touched by socket.rs and event_loop.rs:
the per-fd RX/TX buffer maps (`RX_BUF_MAP`, `TX_BUF_MAP`) and the
reactor's connection registry (`CONN_MAP`). -/
structure SysState where
  rxMap : Int → Option Buffer
  txMap : Int → Option Buffer
  connMap : Int → Option Connection

/-- `map_add`: insert a fresh empty buffer for `fd`. -/
def mapAdd (m : Int → Option Buffer) (fd : Int) : Int → Option Buffer :=
  fun x => if x = fd then some Buffer.new else m x

/-- `map_del`: remove the entry for `fd`. -/
def mapDel (m : Int → Option Buffer) (fd : Int) : Int → Option Buffer :=
  fun x => if x = fd then none else m x

/-- Writing back the (shared, mutated) buffer handle for `fd` into the RX map. -/
def setRx (s : SysState) (fd : Int) (b : Buffer) : SysState :=
  { s with rxMap := fun x => if x = fd then some b else s.rxMap x }

/-- Writing back the (shared, mutated) buffer handle for `fd` into the TX map. -/
def setTx (s : SysState) (fd : Int) (b : Buffer) : SysState :=
  { s with txMap := fun x => if x = fd then some b else s.txMap x }

/-- The error built by socket.rs when a map lookup misses. -/
def unknownFdErr : IoError := ⟨ErrKind.invalidInput, "Unable to find fd"⟩

/-- `socket::init`: creates this socket's RX and TX buffers. -/
def socket.init (s : SysState) (fd : Int) : SysState :=
  { s with rxMap := mapAdd s.rxMap fd, txMap := mapAdd s.txMap fd }

/-- Kernel oracle for `getsockopt(SO_ERROR)`: either the call itself fails,
or it succeeds and reports the socket's errno slot. -/
inductive KSockopt where
  | fail
  | errno (n : Nat)
deriving DecidableEq, Repr

/-- `socket::get_last_error`: `none` when the query failed or the errno slot
was clear, otherwise the stored error. -/
def socket.get_last_error (k : KSockopt) : Option IoError :=
  match k with
  | KSockopt.fail => none
  | KSockopt.errno n => if n = 0 then none else some ⟨ErrKind.osError n, "os error"⟩

/-- Terminator of a kernel `recv` drain: after zero or more data chunks the
kernel answers would-block (`-1`/EWOULDBLOCK), end-of-stream (`0`), or some
other error (`-1`/errno). -/
inductive KFinal where
  | wouldBlock
  | eof
  | kerr (e : IoError)
deriving DecidableEq, Repr

/-- The drain loop of `socket::recv`: each kernel read that returns `r > 0`
bytes appends them to the RX buffer and adds `r` to `total_recvd`; a
would-block breaks the loop returning `Ok(total_recvd)`; a zero read returns
`Err(UnexpectedEof, "EOF")`; any other kernel error propagates.  Buffer
mutations made before an error persist (the `Arc<Buffer>` is shared), so the
buffer is returned alongside the result. -/
def socket.recvLoop : List (List Nat) → KFinal → Buffer → Nat → IoResult Nat × Buffer
  | [], KFinal.wouldBlock, rx, total => (IoResult.ok total, rx)
  | [], KFinal.eof, rx, _ => (IoResult.err ⟨ErrKind.unexpectedEof, "EOF"⟩, rx)
  | [], KFinal.kerr e, rx, _ => (IoResult.err e, rx)
  | chunk :: rest, fin, rx, total =>
      socket.recvLoop rest fin (Buffer.append rx chunk) (total + chunk.length)

/-- `socket::recv`: looks up the fd's RX buffer (error if absent), then
drains the kernel into it via `recvLoop`.  The oracle `chunks`/`fin` lists
the kernel's successive answers. -/
def socket.recv (s : SysState) (fd : Int) (chunks : List (List Nat)) (fin : KFinal) :
    IoResult Nat × SysState :=
  match s.rxMap fd with
  | none => (IoResult.err unknownFdErr, s)
  | some rxBuf =>
      let p := socket.recvLoop chunks fin rxBuf 0
      (p.1, setRx s fd p.2)

/-- Kernel oracle for the single `libc::send` call: would-block
(`-1`/EWOULDBLOCK), another error (`-1`/errno), or `r ≥ 0` bytes accepted. -/
inductive KSend where
  | wouldBlock
  | kerr (e : IoError)
  | sent (r : Nat)
deriving DecidableEq, Repr

/-- `socket::send`: looks up the fd's TX buffer (error if absent), extracts
the whole buffer with `extract(usize::MAX)`, performs ONE kernel write and
handles the outcomes exactly as the source does: would-block returns
`Ok((0, true))`; other errors propagate; `r == 0` returns `Ok((0, false))`
when the extracted buffer was empty and `Err(WriteZero)` otherwise; a
partial write re-prepends `buf[sent..]` and returns `Ok((sent, true))`;
a full write returns `Ok((sent, false))`. -/
def socket.send (s : SysState) (fd : Int) (k : KSend) : IoResult (Nat × Bool) × SysState :=
  match s.txMap fd with
  | none => (IoResult.err unknownFdErr, s)
  | some sockBuf =>
      let p := sockBuf.extract usizeMAX
      let buf := p.1
      let s1 := setTx s fd p.2
      match k with
      | KSend.wouldBlock => (IoResult.ok (0, true), s1)
      | KSend.kerr e => (IoResult.err e, s1)
      | KSend.sent r =>
          if r = 0 then
            if buf.length = 0 then (IoResult.ok (0, false), s1)
            else (IoResult.err ⟨ErrKind.writeZero, "WriteZero"⟩, s1)
          else
            if r < buf.length then
              (IoResult.ok (r, true), setTx s fd (p.2.prepend (buf.drop r)))
            else (IoResult.ok (r, false), s1)

/-- `socket::shutdown`: removes the fd from both buffer maps, then issues the
kernel half-duplex shutdown whose outcome is the oracle `kr` (`none` means
success). -/
def socket.shutdown (s : SysState) (fd : Int) (kr : Option IoError) :
    IoResult Unit × SysState :=
  let s1 := { s with rxMap := mapDel s.rxMap fd, txMap := mapDel s.txMap fd }
  (match kr with | none => IoResult.ok () | some e => IoResult.err e, s1)

/-- `socket::close`: a pure kernel call; its outcome is the oracle. -/
def socket.close (_fd : Int) (kr : Option IoError) : IoResult Unit :=
  match kr with | none => IoResult.ok () | some e => IoResult.err e

/-- `socket::add_to_tx_buf`: appends the user's bytes to the fd's TX buffer
and returns the input length; errors when the fd has no TX entry. -/
def socket.add_to_tx_buf (s : SysState) (fd : Int) (buf : List Nat) :
    IoResult Nat × SysState :=
  match s.txMap fd with
  | none => (IoResult.err unknownFdErr, s)
  | some sockBuf => (IoResult.ok buf.length, setTx s fd (sockBuf.append buf))

/-- `socket::peek`: the RX buffer length; errors when the fd has no RX
entry. -/
def socket.peek (s : SysState) (fd : Int) : IoResult Nat :=
  match s.rxMap fd with
  | some sockBuf => IoResult.ok sockBuf.len
  | none => IoResult.err unknownFdErr

/-- `socket::take`: extracts up to `dstLen` bytes from the RX buffer into the
caller's slice; returns the count written and the bytes themselves. -/
def socket.take (s : SysState) (fd : Int) (dstLen : Nat) :
    IoResult Nat × List Nat × SysState :=
  match s.rxMap fd with
  | some sockBuf =>
      let p := sockBuf.extract dstLen
      let v := p.1
      let len := if dstLen ≤ v.length then dstLen else v.length
      (IoResult.ok len, v.take len, setRx s fd p.2)
  | none => (IoResult.err unknownFdErr, [], s)

/-- `event_loop::map_del` on the connection registry (the part of
`del_conn` that matters to state; the `epoll_ctl DEL` outcome is discarded
by `Connection::shutdown` anyway). -/
def delConn (s : SysState) (c : Connection) : SysState :=
  { s with connMap := fun x => if x = c.socket then none else s.connMap x }

/-- `Connection::shutdown`: deregisters from the reactor (result discarded),
removes both buffer map entries via `socket::shutdown` (result discarded),
then returns `socket::close`'s outcome. -/
def Connection.shutdown (c : Connection) (s : SysState)
    (krShut krClose : Option IoError) : IoResult Unit × SysState :=
  let s1 := delConn s c
  let p2 := socket.shutdown s1 c.socket krShut
  (socket.close c.socket krClose, p2.2)

/-- `Connection::peek`: delegates to `socket::peek`. -/
def Connection.peek (c : Connection) (s : SysState) : IoResult Nat :=
  socket.peek s c.socket

/-- `Connection::recv`: delegates to `socket::take`. -/
def Connection.recv (c : Connection) (s : SysState) (dstLen : Nat) :
    IoResult Nat × List Nat × SysState :=
  socket.take s c.socket dstLen

/-- `Connection::send`: delegates to `socket::add_to_tx_buf`. -/
def Connection.send (c : Connection) (s : SysState) (buf : List Nat) :
    IoResult Nat × SysState :=
  socket.add_to_tx_buf s c.socket buf

/-- epoll event bit `EPOLLIN`. -/
def EPOLLIN : Nat := 1

/-- epoll event bit `EPOLLOUT`. -/
def EPOLLOUT : Nat := 4

/-- epoll event bit `EPOLLERR`. -/
def EPOLLERR : Nat := 8

/-- epoll event bit `EPOLLHUP`. -/
def EPOLLHUP : Nat := 16

/-- epoll event bit `EPOLLRDHUP`. -/
def EPOLLRDHUP : Nat := 8192

/-- `event_loop::close_event`: `e & (EPOLLERR | EPOLLHUP | EPOLLRDHUP) > 0`. -/
def close_event (e : Nat) : Bool :=
  decide (0 < e &&& (EPOLLERR ||| EPOLLHUP ||| EPOLLRDHUP))

/-- `event_loop::read_event`: `e & EPOLLIN > 0`. -/
def read_event (e : Nat) : Bool := decide (0 < e &&& EPOLLIN)

/-- `event_loop::write_event`: `e & EPOLLOUT > 0`. -/
def write_event (e : Nat) : Bool := decide (0 < e &&& EPOLLOUT)

/-- `event_loop::socket_error`: `e & EPOLLERR > 0`. -/
def socket_error (e : Nat) : Bool := decide (0 < e &&& EPOLLERR)

/-- Observable actions of the dispatcher, in program order: user-callback
invocations (`super::on_recv`, `super::on_error`), the epoll re-arm calls,
and the warning logs on registry misses. -/
inductive Action where
  | callOnRecv (fd : Int)
  | callOnError (fd : Int) (e : IoError)
  | rearmR (fd : Int)
  | rearmRW (fd : Int)
  | logWarn
deriving DecidableEq, Repr

/-- `event_loop::epoll_rearm_r`: re-arms the connection's fd with interest R
(EPOLLET | EPOLLONESHOT | EPOLLIN | EPOLLRDHUP via `epoll_ctl MOD`). -/
def epoll_rearm_r (c : Connection) : List Action := [Action.rearmR c.socket]

/-- `event_loop::epoll_rearm_rw`: looks the fd up in the registry and
re-arms with interest RW; logs a warning when the fd is gone. -/
def epoll_rearm_rw (s : SysState) (fd : Int) : List Action :=
  match s.connMap fd with
  | some c => [Action.rearmRW c.socket]
  | none => [Action.logWarn]

/-- The error value computed by `event_loop::handle_close_event`: when the
EPOLLERR bit was set, `get_last_error` with an "Unknown SocketError"
fallback; otherwise a synthesized end-of-stream error. -/
def close_err (events : Nat) (k : KSockopt) : IoError :=
  if socket_error events then
    match socket.get_last_error k with
    | some e => e
    | none => ⟨ErrKind.other, "Unknown SocketError"⟩
  else ⟨ErrKind.unexpectedEof, "EOF"⟩

/-- `event_loop::handle_close_event`: computes the error, then fires
`on_error` on the registered connection (or logs a warning if the fd is no
longer in the registry).  No buffer state changes here. -/
def handle_close_event (s : SysState) (fd : Int) (events : Nat) (k : KSockopt) :
    List Action :=
  let err := close_err events k
  match s.connMap fd with
  | some conn => [Action.callOnError conn.socket err]
  | none => [Action.logWarn]

/-- `event_loop::handle_read_event`: looks up the connection, drains via
`socket::recv`; on success it first invokes `on_recv(conn)` and then
re-arms interest R; on error it invokes `on_error` without re-arming. -/
def handle_read_event (s : SysState) (fd : Int) (chunks : List (List Nat))
    (fin : KFinal) : List Action × SysState :=
  match s.connMap fd with
  | some conn =>
      let p := socket.recv s fd chunks fin
      match p.1 with
      | IoResult.ok _read => ([Action.callOnRecv conn.socket] ++ epoll_rearm_r conn, p.2)
      | IoResult.err e => ([Action.callOnError conn.socket e], p.2)
  | none => ([Action.logWarn], s)

/-- `event_loop::handle_write_event`: looks up the connection, flushes via
`socket::send`; on success re-arms RW when the flag demands it and R
otherwise; on error invokes `on_error` without re-arming. -/
def handle_write_event (s : SysState) (fd : Int) (ks : KSend) :
    List Action × SysState :=
  match s.connMap fd with
  | some conn =>
      let p := socket.send s fd ks
      match p.1 with
      | IoResult.ok sr =>
          (if sr.2 then epoll_rearm_rw p.2 conn.socket else epoll_rearm_r conn, p.2)
      | IoResult.err e => ([Action.callOnError conn.socket e], p.2)
  | none => ([Action.logWarn], s)

/-- `event_loop::handle_epoll_event`: close events short-circuit read/write
processing; otherwise the read path runs when EPOLLIN is set, then the
write path when EPOLLOUT is set. -/
def handle_epoll_event (s : SysState) (fd : Int) (events : Nat) (k : KSockopt)
    (chunks : List (List Nat)) (fin : KFinal) (ks : KSend) :
    List Action × SysState :=
  if close_event events then (handle_close_event s fd events k, s)
  else
    let p1 := if read_event events then handle_read_event s fd chunks fin else ([], s)
    let p2 := if write_event events then handle_write_event p1.2 fd ks else ([], p1.2)
    (p1.1 ++ p2.1, p2.2)

/-- A state with one initialized, registered connection on fd 5 whose RX
buffer is empty: the setting of a read wake. -/
def readState : SysState :=
  { rxMap := fun x => if x = 5 then some ⟨[]⟩ else none,
    txMap := fun x => if x = 5 then some ⟨[]⟩ else none,
    connMap := fun x => if x = 5 then some ⟨5, 0⟩ else none }

/-- A state whose fd 7 is initialized with TX contents `[1, 2, 3]`. -/
def txState : SysState :=
  { rxMap := fun x => if x = 7 then some ⟨[]⟩ else none,
    txMap := fun x => if x = 7 then some ⟨[1, 2, 3]⟩ else none,
    connMap := fun x => if x = 7 then some ⟨7, 0⟩ else none }

/-- A state whose fd 4 is initialized with an empty TX buffer. -/
def emptyTxState : SysState :=
  { rxMap := fun x => if x = 4 then some ⟨[]⟩ else none,
    txMap := fun x => if x = 4 then some ⟨[]⟩ else none,
    connMap := fun x => if x = 4 then some ⟨4, 0⟩ else none }

/-!  Helper lemmas about the in-place shift of `Buffer::extract` and about
the `recv` drain loop. -/

/-- The in-place shift loop of `Buffer::extract` (`v[x] = v[x + len]`,
truncate to `v.len - len`) computes exactly `v.drop len`. -/
theorem range_map_getD (v : List Nat) (len : Nat) (h : len ≤ v.length) :
    (List.range (v.length - len)).map (fun x => v.getD (x + len) 0) = v.drop len := by
  apply List.ext_getElem
  · simp
  · intro i h1 h2
    simp only [List.getElem_map, List.getElem_range]
    have hlt : i + len < v.length := by
      simp only [List.length_map, List.length_range] at h1
      omega
    rw [List.getD_eq_getElem v 0 hlt, List.getElem_drop]
    congr 1
    omega

/-- `Buffer::extract` in closed form: the clamped prefix copy is `take n`
and the shifted remainder is `drop n`. -/
theorem Buffer.extract_eq (b : Buffer) (n : Nat) :
    b.extract n = (b.data.take n, ⟨b.data.drop n⟩) := by
  by_cases h : b.data.length < n
  · simp only [Buffer.extract, if_pos h]
    rw [range_map_getD b.data b.data.length (le_refl _)]
    rw [List.take_length, List.take_of_length_le (le_of_lt h), List.drop_length,
        List.drop_eq_nil_of_le (le_of_lt h)]
  · simp only [Buffer.extract, if_neg h]
    rw [range_map_getD b.data n (le_of_not_lt h)]

/-- Unrolling the `recv` drain loop over all its data chunks: the chunks are
appended to the buffer in arrival order and their lengths accumulate into
the running total. -/
theorem socket.recvLoop_unroll (chunks : List (List Nat)) (fin : KFinal)
    (rx : List Nat) (total : Nat) :
    socket.recvLoop chunks fin ⟨rx⟩ total =
      socket.recvLoop [] fin ⟨rx ++ chunks.flatten⟩
        (total + (chunks.map List.length).sum) := by
  induction chunks generalizing rx total with
  | nil => simp
  | cons c cs ih =>
      simp only [socket.recvLoop, Buffer.append]
      rw [ih]
      simp only [List.flatten_cons, List.map_cons, List.sum_cons, List.append_assoc]
      congr 1
      omega

/-- C4: for every ByteBuffer state and every `n`, `extract n` returns a copy
of the first `min n len` bytes, never fails (it is a total function),
decreases the buffer length by exactly the returned slice's length, and
leaves the remaining bytes in their original order (the returned prefix
followed by the remainder reassembles the original contents). -/
theorem C4_extract_spec (b : Buffer) (n : Nat) :
    (b.extract n).1 = b.data.take n ∧
    (b.extract n).1.length = min n b.data.length ∧
    (b.extract n).2.data = b.data.drop n ∧
    (b.extract n).2.data.length = b.data.length - (b.extract n).1.length ∧
    (b.extract n).1 ++ (b.extract n).2.data = b.data := by
  rw [Buffer.extract_eq]
  refine ⟨rfl, List.length_take n b.data, rfl, ?_, List.take_append_drop n b.data⟩
  simp only [List.length_drop, List.length_take]
  omega

/-- C5: starting from the empty buffer, `append a` then `prepend b` then
`extract (a.len + b.len)` yields `b ++ a`; in general prepended bytes
precede all previously-stored bytes and appended bytes follow them in
order. -/
theorem C5_prepend_extract (a b : List Nat) (buf : Buffer) :
    (((Buffer.new.append a).prepend b).extract (a.length + b.length)).1 = b ++ a ∧
    (buf.prepend b).data = b ++ buf.data ∧
    (buf.append a).data = buf.data ++ a := by
  refine ⟨?_, rfl, rfl⟩
  rw [Buffer.extract_eq]
  simp only [Buffer.new, Buffer.append, Buffer.prepend, List.nil_append]
  apply List.take_of_length_le
  simp [Nat.add_comm]

/-- C3: when the kernel accepts `k` of the `n` extracted TX bytes with
`0 < k < n`, the unsent suffix `tx.drop k` is re-prepended to the TX buffer
and `send` returns `(k, true)`; afterwards the fd's TX buffer holds exactly
that unsent suffix (so its leading bytes are the unsent suffix). -/
theorem C3_partial_send (s : SysState) (fd : Int) (tx : List Nat) (k : Nat)
    (h : s.txMap fd = some ⟨tx⟩) (hb : tx.length ≤ usizeMAX)
    (h0 : 0 < k) (hk : k < tx.length) :
    (socket.send s fd (KSend.sent k)).1 = IoResult.ok (k, true) ∧
    (socket.send s fd (KSend.sent k)).2.txMap fd = some ⟨tx.drop k⟩ := by
  have hne : k ≠ 0 := Nat.pos_iff_ne_zero.mp h0
  simp only [socket.send, h, Buffer.extract_eq]
  rw [List.take_of_length_le hb, List.drop_eq_nil_of_le hb]
  simp [hne, hk, Buffer.prepend, setTx]

/-- Witness for C3 at `tx = [1, 2, 3]`, `k = 2`. -/
theorem C3_partial_send_witness :
    (socket.send txState 7 (KSend.sent 2)).1 = IoResult.ok (2, true) ∧
    (socket.send txState 7 (KSend.sent 2)).2.txMap 7 = some ⟨[3]⟩ :=
  C3_partial_send txState 7 [1, 2, 3] 2 rfl (by norm_num [usizeMAX])
    (by norm_num) (by norm_num)

/-- C10: `add_to_tx_buf` appends the entire slice to the fd's TX buffer
(growing it by exactly the slice's length), returns `Ok` of the full input
length, and fails — with the unknown-fd error, leaving state unchanged —
exactly when the fd has no TX entry; `Connection::send` is this operation
verbatim. -/
theorem C10_add_to_tx_buf (s s2 : SysState) (fd : Int) (bufdata input : List Nat)
    (h : s.txMap fd = some ⟨bufdata⟩) (h2 : s2.txMap fd = none) :
    (socket.add_to_tx_buf s fd input).1 = IoResult.ok input.length ∧
    (socket.add_to_tx_buf s fd input).2.txMap fd = some ⟨bufdata ++ input⟩ ∧
    (Buffer.mk (bufdata ++ input)).len = (Buffer.mk bufdata).len + input.length ∧
    (socket.add_to_tx_buf s2 fd input).1 = IoResult.err unknownFdErr ∧
    (socket.add_to_tx_buf s2 fd input).2 = s2 ∧
    Connection.send ⟨fd, 0⟩ s input = socket.add_to_tx_buf s fd input := by
  simp [socket.add_to_tx_buf, h, h2, Buffer.append, Buffer.len, setTx,
    Connection.send]

/-- Witness for C10: fd 7 holds `[1, 2, 3]` in `txState` and has no entry in
`emptyTxState`. -/
theorem C10_add_to_tx_buf_witness :
    (socket.add_to_tx_buf txState 7 [9, 9]).1 = IoResult.ok 2 ∧
    (socket.add_to_tx_buf txState 7 [9, 9]).2.txMap 7 = some ⟨[1, 2, 3, 9, 9]⟩ ∧
    (Buffer.mk [1, 2, 3, 9, 9]).len = (Buffer.mk [1, 2, 3]).len + 2 ∧
    (socket.add_to_tx_buf emptyTxState 7 [9, 9]).1 = IoResult.err unknownFdErr ∧
    (socket.add_to_tx_buf emptyTxState 7 [9, 9]).2 = emptyTxState ∧
    Connection.send ⟨7, 0⟩ txState [9, 9] = socket.add_to_tx_buf txState 7 [9, 9] :=
  C10_add_to_tx_buf txState emptyTxState 7 [1, 2, 3] [9, 9] rfl rfl

/-- C9: `Connection::shutdown` removes the fd's entries from both the RX and
TX buffer maps, so every subsequent `Connection::peek`, `Connection::send`
and `Connection::recv` on that descriptor returns the invalid-input
"Unable to find fd" error, for every prior state and every kernel outcome
of the shutdown/close calls. -/
theorem C9_shutdown_unknown_fd (c : Connection) (s : SysState)
    (krShut krClose : Option IoError) (input : List Nat) (dstLen : Nat) :
    (Connection.shutdown c s krShut krClose).2.rxMap c.socket = none ∧
    (Connection.shutdown c s krShut krClose).2.txMap c.socket = none ∧
    Connection.peek c (Connection.shutdown c s krShut krClose).2 =
      IoResult.err unknownFdErr ∧
    (Connection.send c (Connection.shutdown c s krShut krClose).2 input).1 =
      IoResult.err unknownFdErr ∧
    (Connection.recv c (Connection.shutdown c s krShut krClose).2 dstLen).1 =
      IoResult.err unknownFdErr := by
  simp [Connection.shutdown, delConn, socket.shutdown, mapDel, Connection.peek,
    socket.peek, Connection.send, socket.add_to_tx_buf, Connection.recv,
    socket.take]

/-- C7 as written is false: with an empty TX buffer, a kernel EWOULDBLOCK
report makes `send` return `(0, true)`, not `(0, false)` — the would-block
branch returns before the buffer length is ever consulted. -/
theorem C7_counterexample :
    emptyTxState.txMap 4 = some ⟨[]⟩ ∧
    (socket.send emptyTxState 4 KSend.wouldBlock).1 = IoResult.ok (0, true) ∧
    (socket.send emptyTxState 4 KSend.wouldBlock).1 ≠ IoResult.ok (0, false) := by
  have h : emptyTxState.txMap 4 = some ⟨[]⟩ := rfl
  refine ⟨h, ?_, ?_⟩ <;> simp [socket.send, h, Buffer.extract_eq]

/-- C7 amended: with an empty TX buffer a kernel EWOULDBLOCK report yields
`(0, true)`; the `(0, false)` return arises when the kernel write returns
zero bytes, the extracted buffer length being zero. -/
theorem C7_amended_empty_send (s : SysState) (fd : Int)
    (h : s.txMap fd = some ⟨[]⟩) :
    (socket.send s fd KSend.wouldBlock).1 = IoResult.ok (0, true) ∧
    (socket.send s fd (KSend.sent 0)).1 = IoResult.ok (0, false) := by
  simp [socket.send, h, Buffer.extract_eq]

/-- Witness for the amended C7 at fd 4 of `emptyTxState`. -/
theorem C7_amended_empty_send_witness :
    (socket.send emptyTxState 4 KSend.wouldBlock).1 = IoResult.ok (0, true) ∧
    (socket.send emptyTxState 4 (KSend.sent 0)).1 = IoResult.ok (0, false) :=
  C7_amended_empty_send emptyTxState 4 rfl

/-- C2 fails on the code: on a kernel EWOULDBLOCK report, `send` returns
`Ok((0, true))` *without* re-prepending the extracted bytes — the local
`buf` holding them is dropped, so a TX buffer that held `[1, 2, 3]` is left
empty and the bytes are lost, contradicting both the claim and the
re-prepending the partial-write branch performs. -/
theorem C2_wouldblock_drops_bytes :
    txState.txMap 7 = some ⟨[1, 2, 3]⟩ ∧
    (socket.send txState 7 KSend.wouldBlock).1 = IoResult.ok (0, true) ∧
    (socket.send txState 7 KSend.wouldBlock).2.txMap 7 = some ⟨[]⟩ ∧
    (Buffer.mk [] : Buffer) ≠ ⟨[1, 2, 3]⟩ := by
  have h : txState.txMap 7 = some ⟨[1, 2, 3]⟩ := rfl
  have hd : ([1, 2, 3] : List Nat).drop usizeMAX = [] :=
    List.drop_eq_nil_of_le (by norm_num [usizeMAX])
  refine ⟨h, ?_, ?_, by decide⟩
  · simp [socket.send, h, Buffer.extract_eq]
  · simp [socket.send, h, Buffer.extract_eq, hd, setTx]

/-- C6: `recv` drains the kernel chunk by chunk (each read bounded by the
4 KiB scratch buffer), appending every chunk to the RX buffer in order;
when the kernel finally reports would-block it returns `Ok` of the running
total — in particular `Ok 0` (not an error) when would-block arrives before
any data — while a kernel zero-byte read produces the end-of-stream error
`UnexpectedEof`, a kind distinct from would-block. -/
theorem C6_recv_drain (s : SysState) (fd : Int) (rx : List Nat)
    (chunks : List (List Nat)) (h : s.rxMap fd = some ⟨rx⟩)
    (hwf : ∀ c ∈ chunks, 0 < c.length ∧ c.length ≤ 4096) :
    (socket.recv s fd chunks KFinal.wouldBlock).1 =
      IoResult.ok (chunks.map List.length).sum ∧
    (socket.recv s fd chunks KFinal.wouldBlock).2.rxMap fd =
      some ⟨rx ++ chunks.flatten⟩ ∧
    (chunks = [] →
      (socket.recv s fd chunks KFinal.wouldBlock).1 = IoResult.ok 0) ∧
    (socket.recv s fd chunks KFinal.eof).1 =
      IoResult.err ⟨ErrKind.unexpectedEof, "EOF"⟩ ∧
    ErrKind.unexpectedEof ≠ ErrKind.wouldBlock := by
  have h1 := socket.recvLoop_unroll chunks KFinal.wouldBlock rx 0
  have h2 := socket.recvLoop_unroll chunks KFinal.eof rx 0
  refine ⟨?_, ?_, fun hc => ?_, ?_, by decide⟩
  · simp [socket.recv, h, h1, socket.recvLoop]
  · simp [socket.recv, h, h1, socket.recvLoop, setRx]
  · subst hc
    simp [socket.recv, h, socket.recvLoop]
  · simp [socket.recv, h, h2, socket.recvLoop]

/-- Witness for C6: fd 5 of `readState` receives chunks `[1, 2]` and `[3]`. -/
theorem C6_recv_drain_witness :
    (socket.recv readState 5 [[1, 2], [3]] KFinal.wouldBlock).1 =
      IoResult.ok 3 ∧
    (socket.recv readState 5 [[1, 2], [3]] KFinal.wouldBlock).2.rxMap 5 =
      some ⟨[1, 2, 3]⟩ ∧
    ([[1, 2], [3]] = ([] : List (List Nat)) →
      (socket.recv readState 5 [[1, 2], [3]] KFinal.wouldBlock).1 =
        IoResult.ok 0) ∧
    (socket.recv readState 5 [[1, 2], [3]] KFinal.eof).1 =
      IoResult.err ⟨ErrKind.unexpectedEof, "EOF"⟩ ∧
    ErrKind.unexpectedEof ≠ ErrKind.wouldBlock :=
  C6_recv_drain readState 5 [] [[1, 2], [3]] rfl (by decide)

/-- C1 as written is false on the code: in `handle_read_event`, after a
successful drain the user callback `on_recv` is invoked FIRST and the
re-arm to interest R only happens after it — at a concrete read wake the
trace puts `callOnRecv` at index 0 and `rearmR` at index 1, so the re-arm
does not precede the callback. -/
theorem C1_counterexample :
    (handle_read_event readState 5 [[1, 2]] KFinal.wouldBlock).1 =
      [Action.callOnRecv 5, Action.rearmR 5] ∧
    (socket.recv readState 5 [[1, 2]] KFinal.wouldBlock).1 = IoResult.ok 2 ∧
    (handle_read_event readState 5 [[1, 2]] KFinal.wouldBlock).1.indexOf
      (Action.callOnRecv 5) = 0 ∧
    (handle_read_event readState 5 [[1, 2]] KFinal.wouldBlock).1.indexOf
      (Action.rearmR 5) = 1 ∧
    ¬ ((handle_read_event readState 5 [[1, 2]] KFinal.wouldBlock).1.indexOf
        (Action.rearmR 5) <
       (handle_read_event readState 5 [[1, 2]] KFinal.wouldBlock).1.indexOf
        (Action.callOnRecv 5)) := by
  decide

/-- C1 amended: for every read event whose drain succeeds, the handler first
invokes `on_recv(connection)` and then re-arms the descriptor's interest
to R — exactly one callback followed by exactly one re-arm, in that order. -/
theorem C1_read_callback_then_rearm (s : SysState) (fd : Int)
    (conn : Connection) (chunks : List (List Nat)) (fin : KFinal) (n : Nat)
    (hc : s.connMap fd = some conn)
    (hr : (socket.recv s fd chunks fin).1 = IoResult.ok n) :
    (handle_read_event s fd chunks fin).1 =
      [Action.callOnRecv conn.socket, Action.rearmR conn.socket] := by
  simp [handle_read_event, hc, hr, epoll_rearm_r]

/-- Witness for the amended C1 at fd 5 of `readState`. -/
theorem C1_read_callback_then_rearm_witness :
    (handle_read_event readState 5 [[1, 2]] KFinal.wouldBlock).1 =
      [Action.callOnRecv 5, Action.rearmR 5] :=
  C1_read_callback_then_rearm readState 5 ⟨5, 0⟩ [[1, 2]] KFinal.wouldBlock 2
    rfl rfl

/-- C8: whenever the event bit set intersects {EPOLLERR, EPOLLHUP,
EPOLLRDHUP}, the dispatcher takes the close path — the result is exactly
`handle_close_event`'s and the state is untouched, so neither the read nor
the write bits are processed; the error delivered on that path is
`get_last_error(fd)` with the "Unknown SocketError" fallback when the
EPOLLERR bit was set, and a synthesized end-of-stream error otherwise. -/
theorem C8_close_path (s : SysState) (fd : Int) (events : Nat) (k : KSockopt)
    (chunks : List (List Nat)) (fin : KFinal) (ks : KSend)
    (h : close_event events = true) :
    handle_epoll_event s fd events k chunks fin ks =
      (handle_close_event s fd events k, s) ∧
    (socket_error events = true →
      close_err events k =
        (socket.get_last_error k).getD ⟨ErrKind.other, "Unknown SocketError"⟩) ∧
    (socket_error events = false →
      close_err events k = ⟨ErrKind.unexpectedEof, "EOF"⟩) := by
  refine ⟨?_, fun hs => ?_, fun hs => ?_⟩
  · simp [handle_epoll_event, h]
  · cases hgl : socket.get_last_error k <;> simp [close_err, hs, hgl]
  · simp [close_err, hs]

/-- Witness for C8 at `events = EPOLLERR = 8` with a pending errno 111. -/
theorem C8_close_path_witness :
    handle_epoll_event readState 5 8 (KSockopt.errno 111) [] KFinal.wouldBlock
      KSend.wouldBlock =
      (handle_close_event readState 5 8 (KSockopt.errno 111), readState) ∧
    (socket_error 8 = true →
      close_err 8 (KSockopt.errno 111) =
        (socket.get_last_error (KSockopt.errno 111)).getD
          ⟨ErrKind.other, "Unknown SocketError"⟩) ∧
    (socket_error 8 = false →
      close_err 8 (KSockopt.errno 111) = ⟨ErrKind.unexpectedEof, "EOF"⟩) :=
  C8_close_path readState 5 8 (KSockopt.errno 111) [] KFinal.wouldBlock
    KSend.wouldBlock (by decide)

end Alnio
